import Mathlib

/-!
Verification of the `playwright-e2e-framework` reporting pipeline.

The definitions below are a shallow embedding of the TypeScript sources:
  * `src/utils/sendEmailReport.ts`  — Playwright JSON-report parsing
  * `src/utils/EmailReporter.ts`    — HTML email report generation
  * `src/utils/TestDataLoader.ts`   — JSON/YAML test-data loading
  * `src/integrations/SquashTM.ts`  — Squash TM result upload

File systems are modelled as functions `String → Option …` (absent file =
`none`), network transports as explicit outcome parameters, and JavaScript
numbers (where division by zero matters) as exact rationals extended with
NaN/Infinity.  Thrown JS errors are modelled with `Except`.
-/

namespace PlaywrightE2E

/-! ## Report data model (sendEmailReport.ts / EmailReporter.ts) -/

/-- Test status as declared by `TestResult.status` in EmailReporter.ts
(`'passed' | 'failed' | 'skipped'`). -/
inductive TestStatus where
  | passed
  | failed
  | skipped
deriving DecidableEq, Repr

/-- One attempt record: an element of a Playwright report's
`specs[].tests[].results[]` list (fields `status`, `duration`,
`error.message`). -/
structure AttemptResult where
  status : TestStatus
  duration : Nat
  errorMessage : Option String
deriving DecidableEq, Repr

/-- One element of a spec's `tests` array (one per project/run); it carries
the `results` attempt list. -/
structure TestEntry where
  results : List AttemptResult
deriving DecidableEq, Repr

/-- One spec (test case) of a report suite: `title` and its `tests` array. -/
structure TestSpec where
  title : String
  tests : List TestEntry
deriving DecidableEq, Repr

/-- A report suite: its `specs` array and its nested `suites` array. -/
inductive Suite where
  | mk (specs : List TestSpec) (suites : List Suite)

/-- Field accessor for the `specs` array of a suite. -/
def Suite.specs : Suite → List TestSpec
  | .mk specs _ => specs

/-- Field accessor for the nested `suites` array of a suite. -/
def Suite.children : Suite → List Suite
  | .mk _ suites => suites

/-- Flattened test result (interface `TestResult` in EmailReporter.ts). -/
structure TestResult where
  name : String
  status : TestStatus
  duration : Nat
  error : Option String
  retries : Nat
deriving DecidableEq, Repr

/-- Truncation `.substring(0, 200)` applied to error messages
(sendEmailReport.ts line 99). -/
def truncate200 (s : String) : String :=
  (s.toList.take 200).asString

/-- Flattening of one `tests[]` entry's `results` attempt list
(sendEmailReport.ts lines 88-103): `none` when the list is empty, otherwise
the record built from its last element, with `retries = length - 1`. -/
def flattenEntry (title : String) (resultsList : List AttemptResult) :
    Option TestResult :=
  match resultsList.getLast? with
  | none => none
  | some lastResult =>
      some { name := title
             status := lastResult.status
             duration := lastResult.duration
             error := lastResult.errorMessage.map truncate200
             retries := resultsList.length - 1 }

/-- Results pushed for one spec (the loop over `spec.tests` in
sendEmailReport.ts lines 84-106). -/
def parseSpec (spec : TestSpec) : List TestResult :=
  spec.tests.filterMap (fun entry => flattenEntry spec.title entry.results)

mutual

/-- Recursive walk `parseTestSuite` (sendEmailReport.ts lines 76-116):
flatten this suite's specs, then recurse into nested suites, accumulating
into one list in traversal order. -/
def parseTestSuite : Suite → List TestResult
  | .mk specs suites => parseSpecs specs ++ parseSuites suites

/-- Accumulation over a list of specs (the `for (const spec of specs)`
loop). -/
def parseSpecs : List TestSpec → List TestResult
  | [] => []
  | spec :: rest => parseSpec spec ++ parseSpecs rest

/-- Accumulation over a list of nested suites (the
`for (const nestedSuite of nestedSuites)` loop). -/
def parseSuites : List Suite → List TestResult
  | [] => []
  | s :: rest => parseTestSuite s ++ parseSuites rest

end

/-- Top-level loop over `report.suites` (sendEmailReport.ts lines 34-36). -/
def parseReportTests (suites : List Suite) : List TestResult :=
  parseSuites suites

mutual

/-- Specs of a suite collected at any nesting depth, in traversal order. -/
def collectSpecs : Suite → List TestSpec
  | .mk specs suites => specs ++ collectSpecsList suites

/-- Specs collected from a list of suites at any nesting depth. -/
def collectSpecsList : List Suite → List TestSpec
  | [] => []
  | s :: rest => collectSpecs s ++ collectSpecsList rest

end

/-- Running counters of the single scan over parsed results
(sendEmailReport.ts lines 29-31 and 39-51). -/
structure Counts where
  passed : Nat
  failed : Nat
  skipped : Nat
deriving DecidableEq, Repr

/-- One step of the counting scan (the `switch (test.status)` at
sendEmailReport.ts lines 40-50). -/
def countStep (acc : Counts) (t : TestResult) : Counts :=
  match t.status with
  | .passed => { acc with passed := acc.passed + 1 }
  | .failed => { acc with failed := acc.failed + 1 }
  | .skipped => { acc with skipped := acc.skipped + 1 }

/-- Single scan of the flattened result list computing the per-status
counters (sendEmailReport.ts lines 39-51). -/
def countResults (tests : List TestResult) : Counts :=
  tests.foldl countStep ⟨0, 0, 0⟩

/-- Summary record (interface `TestResultSummary` in EmailReporter.ts).
Dates are carried as their ISO string rendering; `duration` is a JS number
in milliseconds, modelled as an exact rational. -/
structure TestResultSummary where
  totalTests : Nat
  passed : Nat
  failed : Nat
  skipped : Nat
  duration : ℚ
  startTime : String
  endTime : String
  environment : String
  browserName : String
deriving DecidableEq, Repr

/-- Summary construction from the flattened list (sendEmailReport.ts lines
53-63): `totalTests` is the list length and the per-status counts come from
the single scan `countResults`. -/
def mkSummary (tests : List TestResult) (statsDuration : ℚ)
    (startTime endTime environment browserName : String) : TestResultSummary :=
  { totalTests := tests.length
    passed := (countResults tests).passed
    failed := (countResults tests).failed
    skipped := (countResults tests).skipped
    duration := statsDuration
    startTime := startTime
    endTime := endTime
    environment := environment
    browserName := browserName }

/-- Email report payload (interface `EmailReportData`). -/
structure EmailReportData where
  summary : TestResultSummary
  tests : List TestResult
  projectName : Option String
  buildUrl : Option String
deriving DecidableEq, Repr

/-- Parsed shape of the serialized Playwright report consumed by
`parsePlaywrightReport`: `suites`, `stats.duration`, `stats.startTime`,
`stats.endTime` (dates as ISO strings) and `config.projects[0].name`. -/
structure PlaywrightReport where
  suites : List Suite
  statsDuration : ℚ
  startTime : String
  endTime : String
  projectZeroName : Option String

/-- Error taxonomy of the pipeline's thrown errors (each `throw new
Error(...)` site is mapped to one constructor carrying its context). -/
inductive LoadError where
  | notFound (path : String)
  | parseError (path : String) (msg : String)
  | missingKey (key : String) (file : String)
  | notAnArray (key : String) (file : String)
deriving DecidableEq, Repr

/-- Report parsing entry point (sendEmailReport.ts lines 19-71).  The file
store maps a path to the already-parsed report (`JSON.parse` of the file
content, which the claims do not exercise); an absent file throws the
not-found error of lines 20-22.  `environment` stands for
`settings.testEnv` and `buildUrl` for the CI environment variables. -/
def parsePlaywrightReport (store : String → Option PlaywrightReport)
    (reportPath : String) (environment : String) (buildUrl : Option String) :
    Except LoadError EmailReportData :=
  match store reportPath with
  | none => .error (.notFound reportPath)
  | some report =>
      let tests := parseReportTests report.suites
      .ok { summary := mkSummary tests report.statsDuration report.startTime
              report.endTime environment (report.projectZeroName.getD "chromium")
            tests := tests
            projectName := some "Playwright E2E Tests"
            buildUrl := buildUrl }

end PlaywrightE2E

namespace PlaywrightE2E

/-! ## JavaScript number model

Arithmetic in the reporter is JS double arithmetic.  The claims only
exercise exact values (small integer ratios) and the zero-denominator
special cases, so numbers are modelled as exact rationals extended with the
JS special values `NaN` and the two infinities. -/

/-- JS number: an exact rational, or one of the special values. -/
inductive JSNum where
  | num (q : ℚ)
  | nan
  | inf
  | negInf
deriving DecidableEq, Repr

/-- JS division `a / b`: for `b = 0` it yields `NaN` when `a = 0` and a
signed infinity otherwise. -/
def jsDiv (a b : ℚ) : JSNum :=
  if b = 0 then (if a = 0 then .nan else if 0 < a then .inf else .negInf)
  else .num (a / b)

/-- JS multiplication of a number by a nonzero rational constant. -/
def jsMul (x : JSNum) (c : ℚ) : JSNum :=
  match x with
  | .num q => .num (q * c)
  | .nan => .nan
  | .inf => if 0 < c then .inf else if c < 0 then .negInf else .nan
  | .negInf => if 0 < c then .negInf else if c < 0 then .inf else .nan

/-- Result of JS `Math.round`: an integer, or one of the special values,
which are fixed points of rounding. -/
inductive JSInt where
  | int (z : ℤ)
  | nan
  | inf
  | negInf
deriving DecidableEq, Repr

/-- JS `Math.round`: for finite values ties round toward positive infinity
(`Math.round x = ⌊x + 0.5⌋`); the special values are fixed points. -/
def jsRound : JSNum → JSInt
  | .num q => .int ⌊q + 1/2⌋
  | .nan => .nan
  | .inf => .inf
  | .negInf => .negInf

/-- JS `String(n)` on a rounding result: integers render in decimal and
the special values render as their JS names. -/
def jsIntToString : JSInt → String
  | .int z => toString z
  | .nan => "NaN"
  | .inf => "Infinity"
  | .negInf => "-Infinity"

/-- Pass-rate computation `Math.round((passed / totalTests) * 100)`
(EmailReporter.ts lines 109 and 127). -/
def passRateNum (passed totalTests : ℕ) : JSInt :=
  jsRound (jsMul (jsDiv passed totalTests) 100)

/-- Duration in whole minutes `Math.round(duration / 60000)`
(EmailReporter.ts line 128). -/
def durationMinutesNum (duration : ℚ) : JSInt :=
  jsRound (jsDiv duration 60000)

/-! ## String replacement

JS `.replace(/lit/g, v)` (literal pattern, global flag) replaces every
non-overlapping occurrence left to right; `.replace('lit', v)` (string
pattern, EmailReporter.ts line 163) replaces only the first occurrence.
Replacement values of this pipeline contain no `$` escape sequences, so the
replacement string is inserted literally. -/

/-- Does `pat` occur at the head of `l`? -/
def headMatch : List Char → List Char → Bool
  | [], _ => true
  | _ :: _, [] => false
  | p :: ps, c :: cs => p == c && headMatch ps cs

/-- Scanning step of global replacement, structurally recursive on a fuel
bound: each step consumes at least one input character, so any fuel of at
least the input length yields the full left-to-right scan. -/
def listReplaceAllAux (pat rep : List Char) : Nat → List Char → List Char
  | _, [] => []
  | 0, l => l
  | fuel + 1, c :: cs =>
      if headMatch pat (c :: cs) then
        rep ++ listReplaceAllAux pat rep fuel (List.drop (pat.length - 1) cs)
      else
        c :: listReplaceAllAux pat rep fuel cs

/-- Replacement of every non-overlapping occurrence of `pat` by `rep`,
scanning left to right. -/
def listReplaceAll (pat rep : List Char) (l : List Char) : List Char :=
  listReplaceAllAux pat rep l.length l

/-- Replacement of the first occurrence of `pat` by `rep`. -/
def listReplaceFirst (pat rep : List Char) (l : List Char) : List Char :=
  match l with
  | [] => []
  | c :: cs =>
      if headMatch pat (c :: cs) then
        rep ++ List.drop (pat.length - 1) cs
      else
        c :: listReplaceFirst pat rep cs

/-- String wrapper for global literal replacement. -/
def replaceAll (s pat rep : String) : String :=
  (listReplaceAll pat.toList rep.toList s.toList).asString

/-- String wrapper for first-occurrence literal replacement. -/
def replaceFirst (s pat rep : String) : String :=
  (listReplaceFirst pat.toList rep.toList s.toList).asString

/-- JS `.toUpperCase()` restricted to ASCII letters (the environment names
this pipeline uppercases are ASCII). -/
def toUpperJs (s : String) : String :=
  (s.toList.map Char.toUpper).asString

/-- JS `v || d` for an optional string `v`: the default is taken when the
value is absent or the empty string (falsy). -/
def jsOrStr (v : Option String) (d : String) : String :=
  match v with
  | none => d
  | some s => if s = "" then d else s

/-! ## Email reporter (EmailReporter.ts) -/

/-- Status colour for one result row (`getStatusColor`). -/
def getStatusColor : TestStatus → String
  | .passed => "#28a745"
  | .failed => "#dc3545"
  | .skipped => "#856404"

/-- Status emoji for one result row (`getStatusEmoji`). -/
def getStatusEmoji : TestStatus → String
  | .passed => "✅"
  | .failed => "❌"
  | .skipped => "⏭️"

/-- Rendering `test.status.toUpperCase()` for the three statuses. -/
def statusUpper : TestStatus → String
  | .passed => "PASSED"
  | .failed => "FAILED"
  | .skipped => "SKIPPED"

/-- Email subject line (`generateSubject`, EmailReporter.ts lines 107-111). -/
def generateSubject (summary : TestResultSummary) : String :=
  let status := if summary.failed > 0 then "❌ FAILED" else "✅ PASSED"
  let passRate := passRateNum summary.passed summary.totalTests
  status ++ " | Test Report | " ++ jsIntToString passRate ++ "% Pass Rate | " ++
    toUpperJs summary.environment ++ " | " ++ toString summary.totalTests ++ " Tests"

/-- Literal placeholder patterns of the email template (the thirteen
global-replace targets of EmailReporter.ts lines 130-143 and the rows
target of line 163). -/
def phProjectName : String := "\x7b\x7bPROJECT_NAME\x7d\x7d"

/-- Placeholder for the environment name. -/
def phEnvironment : String := "\x7b\x7bENVIRONMENT\x7d\x7d"

/-- Placeholder for the total test count. -/
def phTotalTests : String := "\x7b\x7bTOTAL_TESTS\x7d\x7d"

/-- Placeholder for the passed count. -/
def phPassed : String := "\x7b\x7bPASSED\x7d\x7d"

/-- Placeholder for the failed count. -/
def phFailed : String := "\x7b\x7bFAILED\x7d\x7d"

/-- Placeholder for the skipped count. -/
def phSkipped : String := "\x7b\x7bSKIPPED\x7d\x7d"

/-- Placeholder for the pass rate. -/
def phPassRate : String := "\x7b\x7bPASS_RATE\x7d\x7d"

/-- Placeholder for the duration in minutes. -/
def phDuration : String := "\x7b\x7bDURATION\x7d\x7d"

/-- Placeholder for the start time. -/
def phStartTime : String := "\x7b\x7bSTART_TIME\x7d\x7d"

/-- Placeholder for the end time. -/
def phEndTime : String := "\x7b\x7bEND_TIME\x7d\x7d"

/-- Placeholder for the status emoji. -/
def phStatusEmoji : String := "\x7b\x7bSTATUS_EMOJI\x7d\x7d"

/-- Placeholder for the status colour. -/
def phStatusColor : String := "\x7b\x7bSTATUS_COLOR\x7d\x7d"

/-- Placeholder for the build URL. -/
def phBuildUrl : String := "\x7b\x7bBUILD_URL\x7d\x7d"

/-- Placeholder for the generated result-row fragment. -/
def phTestResultsRows : String := "\x7b\x7bTEST_RESULTS_ROWS\x7d\x7d"

/-- One HTML table row for a flattened result (the mapping at
EmailReporter.ts lines 146-161). -/
def rowHtml (test : TestResult) : String :=
  "\n      <tr>\n        <td style=\"padding: 8px; border-bottom: 1px solid #ddd;\">" ++
  test.name ++
  "</td>\n        <td style=\"padding: 8px; border-bottom: 1px solid #ddd; text-align: center;\">\n          <span style=\"color: " ++
  getStatusColor test.status ++
  "; font-weight: bold;\">\n            " ++
  getStatusEmoji test.status ++ " " ++ statusUpper test.status ++
  "\n          </span>\n        </td>\n        <td style=\"padding: 8px; border-bottom: 1px solid #ddd; text-align: center;\">" ++
  toString test.duration ++
  "ms</td>\n        <td style=\"padding: 8px; border-bottom: 1px solid #ddd; color: #dc3545;\">" ++
  jsOrStr test.error "-" ++
  "</td>\n      </tr>\n    "

/-- Concatenation `.join('')` of all result rows. -/
def testRowsHtml (tests : List TestResult) : String :=
  String.join (tests.map rowHtml)

/-- Fixed relative path of the custom template file
(EmailReporter.ts line 117, the `process.cwd()` resolution elided). -/
def emailTemplatePath : String := "templates/email-report.html"

/-- Built-in default HTML template (`getDefaultTemplate`,
EmailReporter.ts lines 171-244), used when no template file exists. -/
def getDefaultTemplate : String :=
  "\n<!DOCTYPE html>\n<html>\n<head>\n  <meta charset=\"UTF-8\">\n  <title>Test Report</title>\n</head>\n<body style=\"font-family: Arial, sans-serif; margin: 0; padding: 20px; background-color: #f5f5f5;\">\n  <div style=\"max-width: 800px; margin: 0 auto; background-color: #fff; border-radius: 8px; overflow: hidden; box-shadow: 0 2px 10px rgba(0,0,0,0.1);\">\n    <!-- Header -->\n    <div style=\"background-color: \x7b\x7bSTATUS_COLOR\x7d\x7d; color: white; padding: 20px; text-align: center;\">\n      <h1 style=\"margin: 0;\">\x7b\x7bSTATUS_EMOJI\x7d\x7d \x7b\x7bPROJECT_NAME\x7d\x7d</h1>\n      <p style=\"margin: 10px 0 0 0; opacity: 0.9;\">Environment: \x7b\x7bENVIRONMENT\x7d\x7d</p>\n    </div>\n    \n    <!-- Summary -->\n    <div style=\"padding: 20px;\">\n      <h2 style=\"color: #333; border-bottom: 2px solid #eee; padding-bottom: 10px;\">Summary</h2>\n      <div style=\"display: flex; flex-wrap: wrap; gap: 20px;\">\n        <div style=\"flex: 1; min-width: 150px; background: #f8f9fa; padding: 15px; border-radius: 8px; text-align: center;\">\n          <div style=\"font-size: 32px; font-weight: bold; color: #333;\">\x7b\x7bTOTAL_TESTS\x7d\x7d</div>\n          <div style=\"color: #666;\">Total Tests</div>\n        </div>\n        <div style=\"flex: 1; min-width: 150px; background: #d4edda; padding: 15px; border-radius: 8px; text-align: center;\">\n          <div style=\"font-size: 32px; font-weight: bold; color: #28a745;\">\x7b\x7bPASSED\x7d\x7d</div>\n          <div style=\"color: #666;\">Passed</div>\n        </div>\n        <div style=\"flex: 1; min-width: 150px; background: #f8d7da; padding: 15px; border-radius: 8px; text-align: center;\">\n          <div style=\"font-size: 32px; font-weight: bold; color: #dc3545;\">\x7b\x7bFAILED\x7d\x7d</div>\n          <div style=\"color: #666;\">Failed</div>\n        </div>\n        <div style=\"flex: 1; min-width: 150px; background: #fff3cd; padding: 15px; border-radius: 8px; text-align: center;\">\n          <div style=\"font-size: 32px; font-weight: bold; color: #856404;\">\x7b\x7bSKIPPED\x7d\x7d</div>\n          <div style=\"color: #666;\">Skipped</div>\n        </div>\n      </div>\n      \n      <div style=\"margin-top: 20px; padding: 15px; background: #e9ecef; border-radius: 8px;\">\n        <p style=\"margin: 5px 0;\"><strong>Pass Rate:</strong> \x7b\x7bPASS_RATE\x7d\x7d%</p>\n        <p style=\"margin: 5px 0;\"><strong>Duration:</strong> \x7b\x7bDURATION\x7d\x7d</p>\n        <p style=\"margin: 5px 0;\"><strong>Started:</strong> \x7b\x7bSTART_TIME\x7d\x7d</p>\n        <p style=\"margin: 5px 0;\"><strong>Ended:</strong> \x7b\x7bEND_TIME\x7d\x7d</p>\n      </div>\n    </div>\n    \n    <!-- Test Results -->\n    <div style=\"padding: 20px;\">\n      <h2 style=\"color: #333; border-bottom: 2px solid #eee; padding-bottom: 10px;\">Test Results</h2>\n      <table style=\"width: 100%; border-collapse: collapse;\">\n        <thead>\n          <tr style=\"background-color: #f8f9fa;\">\n            <th style=\"padding: 12px; text-align: left; border-bottom: 2px solid #dee2e6;\">Test Name</th>\n            <th style=\"padding: 12px; text-align: center; border-bottom: 2px solid #dee2e6;\">Status</th>\n            <th style=\"padding: 12px; text-align: center; border-bottom: 2px solid #dee2e6;\">Duration</th>\n            <th style=\"padding: 12px; text-align: left; border-bottom: 2px solid #dee2e6;\">Error</th>\n          </tr>\n        </thead>\n        <tbody>\n          \x7b\x7bTEST_RESULTS_ROWS\x7d\x7d\n        </tbody>\n      </table>\n    </div>\n    \n    <!-- Footer -->\n    <div style=\"background-color: #f8f9fa; padding: 15px; text-align: center; color: #666;\">\n      <p style=\"margin: 0;\">Generated by Playwright E2E Framework</p>\n      <p style=\"margin: 5px 0 0 0;\"><a href=\"\x7b\x7bBUILD_URL\x7d\x7d\" style=\"color: #007bff;\">View Full Report</a></p>\n    </div>\n  </div>\n</body>\n</html>\n    "

/-- Placeholder substitution pass of `generateHtmlReport`
(EmailReporter.ts lines 126-143): thirteen global literal replacements.
`toISOString()` is modelled as the ISO string carried by the summary. -/
def substitutePlaceholders (template : String) (data : EmailReportData) : String :=
  let passRate := passRateNum data.summary.passed data.summary.totalTests
  let durationMinutes := durationMinutesNum data.summary.duration
  let h := replaceAll template phProjectName (jsOrStr data.projectName "Playwright E2E Tests")
  let h := replaceAll h phEnvironment (toUpperJs data.summary.environment)
  let h := replaceAll h phTotalTests (toString data.summary.totalTests)
  let h := replaceAll h phPassed (toString data.summary.passed)
  let h := replaceAll h phFailed (toString data.summary.failed)
  let h := replaceAll h phSkipped (toString data.summary.skipped)
  let h := replaceAll h phPassRate (jsIntToString passRate)
  let h := replaceAll h phDuration (jsIntToString durationMinutes ++ " min")
  let h := replaceAll h phStartTime data.summary.startTime
  let h := replaceAll h phEndTime data.summary.endTime
  let h := replaceAll h phStatusEmoji (if data.summary.failed > 0 then "❌" else "✅")
  let h := replaceAll h phStatusColor (if data.summary.failed > 0 then "#dc3545" else "#28a745")
  replaceAll h phBuildUrl (jsOrStr data.buildUrl "#")

/-- HTML report generation (`generateHtmlReport`, EmailReporter.ts lines
116-166).  The file store models the filesystem: when the template file is
absent (`existsSync` false) the built-in default template is used.  The
rows fragment is substituted by a first-occurrence string replace
(line 163). -/
def generateHtmlReport (files : String → Option String)
    (data : EmailReportData) : String :=
  let template :=
    match files emailTemplatePath with
    | some t => t
    | none => getDefaultTemplate
  let html := substitutePlaceholders template data
  replaceFirst html phTestResultsRows (testRowsHtml data.tests)

/-- Email settings snapshot (`settings.email` in config/settings.ts);
`emailFrom` models the `from` field. -/
structure EmailSettings where
  host : String
  port : Nat
  secure : Bool
  user : String
  password : String
  recipients : List String
  emailFrom : String
deriving DecidableEq, Repr

/-- Prepared mail attachment (`filename` is `path.basename` of the file). -/
structure Attachment where
  filename : String
  path : String
deriving DecidableEq, Repr

/-- Node `path.basename` restricted to `/`-separated paths. -/
def basenameOf (p : String) : String :=
  ((p.splitOn "/").getLast?).getD p

/-- Attachment preparation (`prepareAttachments`, EmailReporter.ts lines
281-292): absent or empty path list gives no attachments; paths whose file
does not exist are silently filtered out. -/
def prepareAttachments (files : String → Option String)
    (attachmentPaths : Option (List String)) : List Attachment :=
  match attachmentPaths with
  | none => []
  | some paths =>
      if paths.length = 0 then []
      else (paths.filter (fun p => (files p).isSome)).map
        (fun p => { filename := basenameOf p, path := p })

/-- Mail options handed to the transport (`mailOptions`, EmailReporter.ts
lines 86-92); `sender`/`receiver` model the `from`/`to` fields. -/
structure MailOptions where
  sender : String
  receiver : String
  subject : String
  html : String
  attachments : List Attachment
deriving DecidableEq, Repr

/-- Mail options built inside `sendReport` (EmailReporter.ts lines 81-92). -/
def mailOptionsOf (files : String → Option String) (cfg : EmailSettings)
    (data : EmailReportData) (attachmentPaths : Option (List String)) :
    MailOptions :=
  { sender := cfg.emailFrom
    receiver := String.intercalate ", " cfg.recipients
    subject := generateSubject data.summary
    html := generateHtmlReport files data
    attachments := prepareAttachments files attachmentPaths }

/-- Report dispatch (`sendReport`, EmailReporter.ts lines 77-102).  The
body runs inside one try/catch; its pure parts cannot throw (the template
read is guarded by `existsSync`), the only fallible step is
`transporter.sendMail`, whose outcome the `transport` parameter decides.
A transport error is caught and logged and the method returns `false`;
on success it returns `true` — it never throws to its caller. -/
def sendReport (files : String → Option String)
    (transport : MailOptions → Except String Unit) (cfg : EmailSettings)
    (data : EmailReportData) (attachmentPaths : Option (List String)) : Bool :=
  match transport (mailOptionsOf files cfg data attachmentPaths) with
  | .ok _ => true
  | .error _ => false

end PlaywrightE2E

namespace PlaywrightE2E

/-! ## Test data loader (TestDataLoader.ts) -/

/-- Data format selector (`type DataFormat = 'json' | 'yaml'`). -/
inductive DataFormat where
  | json
  | yaml
deriving DecidableEq, Repr

/-- JSON/YAML value as produced by `JSON.parse` / `YAML.parse`.  Object
fields are an association list; parsed objects have distinct keys. -/
inductive JsonVal where
  | null
  | bool (b : Bool)
  | num (q : ℚ)
  | str (s : String)
  | arr (elems : List JsonVal)
  | obj (fields : List (String × JsonVal))

/-- JS truthiness of a parsed value (`null`, `false`, `0` and `""` are
falsy; arrays and objects are always truthy). -/
def truthy : JsonVal → Bool
  | .null => false
  | .bool b => b
  | .num q => q != 0
  | .str s => s != ""
  | .arr _ => true
  | .obj _ => true

/-- Is the value an array (`Array.isArray`)? -/
def isArrayVal : JsonVal → Bool
  | .arr _ => true
  | _ => false

/-- JS property read `data[key]`: `none` models `undefined` (key absent or
the value not an object). -/
def getFieldJs (v : JsonVal) (key : String) : Option JsonVal :=
  match v with
  | .obj fields => fields.lookup key
  | _ => none

/-- Directory for a data format (`DATA_DIRS`, TestDataLoader.ts lines
199-202, the `process.cwd()` resolution elided). -/
def dataDirOf : DataFormat → String
  | .json => "test-data/json"
  | .yaml => "test-data/yaml"

/-- File extension for a data format (TestDataLoader.ts line 213). -/
def extOf : DataFormat → String
  | .json => ".json"
  | .yaml => ".yaml"

/-- Resolved data-file path (TestDataLoader.ts line 215). -/
def dataFilePath (format : DataFormat) (filename : String) : String :=
  dataDirOf format ++ "/" ++ filename ++ extOf format

/-- Loading of a named data file (`loadTestData`, TestDataLoader.ts lines
211-235).  The store maps a path to `none` when the file is absent
(`existsSync` false, thrown not-found error of lines 219-221), to
`some (.error msg)` when its content is malformed (the parse failure of
lines 225-234, rethrown with format and path context), and to
`some (.ok v)` when it deserializes to `v`.  The `format` argument is the
resolved format (the optional override, defaulting to the configured
format). -/
def loadTestData (store : String → Option (Except String JsonVal))
    (format : DataFormat) (filename : String) : Except LoadError JsonVal :=
  let filePath := dataFilePath format filename
  match store filePath with
  | none => .error (.notFound filePath)
  | some (.error msg) => .error (.parseError filePath msg)
  | some (.ok v) => .ok v

/-- Array extraction (`loadTestDataArray`, TestDataLoader.ts lines
244-256): load the record, throw the missing-key error when `data[key]` is
absent or falsy (the `!data[arrayKey]` guard of line 247), the
not-an-array error when it is truthy but not an array (line 251), and
return the array otherwise. -/
def loadTestDataArray (store : String → Option (Except String JsonVal))
    (format : DataFormat) (filename : String) (arrayKey : String) :
    Except LoadError (List JsonVal) :=
  match loadTestData store format filename with
  | .error e => .error e
  | .ok data =>
      match getFieldJs data arrayKey with
      | none => .error (.missingKey arrayKey filename)
      | some v =>
          if truthy v then
            match v with
            | .arr elems => .ok elems
            | _ => .error (.notAnArray arrayKey filename)
          else .error (.missingKey arrayKey filename)

/-! ## Squash TM client (SquashTM.ts)

The two extraction regexes `/@squashTM:([A-Z0-9-]+)/i` and `/TC-(\d+)/i`
are literal text followed by a one-or-more character class.  A JS regex
with the `i` flag and no `u` flag case-folds ASCII letters only (a
non-ASCII character is never canonicalized to an ASCII one), so each
literal character is modelled by the list of input characters it accepts,
and matching scans start positions left to right, taking the maximal
(greedy) class run at the first position where the whole pattern
matches. -/

/-- Matching of a literal pattern given per-position accepted characters:
`some rest` when every position matches, with `rest` the input after the
literal. -/
def matchAlts : List (List Char) → List Char → Option (List Char)
  | [], rest => some rest
  | _ :: _, [] => none
  | alts :: more, c :: rest =>
      if c ∈ alts then matchAlts more rest else none

/-- Accepted characters, position by position, of `/@squashTM:/i`. -/
def markerAlts : List (List Char) :=
  [['@'], ['s', 'S'], ['q', 'Q'], ['u', 'U'], ['a', 'A'], ['s', 'S'],
   ['h', 'H'], ['t', 'T'], ['m', 'M'], [':']]

/-- Membership in the class `[A-Z0-9-]` under the `i` flag: ASCII letters
of either case, digits, and the hyphen. -/
def squashIdChar (c : Char) : Bool :=
  (('A' ≤ c && c ≤ 'Z') || ('a' ≤ c && c ≤ 'z') ||
   ('0' ≤ c && c ≤ '9') || c == '-')

/-- Accepted characters, position by position, of the case-insensitive
literal `TC-`. -/
def tcAlts : List (List Char) :=
  [['t', 'T'], ['c', 'C'], ['-']]

/-- Membership in the class `\d`: the ASCII digits. -/
def digitChar (c : Char) : Bool :=
  '0' ≤ c && c ≤ '9'

/-- Regex search for `literal (class+)`: try each start position left to
right; at the first position where the literal matches and at least one
class character follows, capture the maximal class run. -/
def scanCapture (alts : List (List Char)) (cls : Char → Bool) :
    List Char → Option (List Char)
  | [] => none
  | c :: cs =>
      match matchAlts alts (c :: cs) with
      | some after =>
          let run := after.takeWhile cls
          if run.isEmpty then scanCapture alts cls cs else some run
      | none => scanCapture alts cls cs

/-- Squash id extraction (`parseSquashId`, SquashTM.ts lines 87-90):
first capture of `/@squashTM:([A-Z0-9-]+)/i` in the test title, `none`
when the pattern does not match. -/
def parseSquashId (testTitle : String) : Option String :=
  (scanCapture markerAlts squashIdChar testTitle.toList).map List.asString

/-- Numeric test-case id extraction (`extractTestCaseId`, SquashTM.ts
lines 152-156): first capture of `/TC-(\d+)/i` in the Squash id, `none`
when the pattern does not match. -/
def extractTestCaseId (squashId : String) : Option String :=
  (scanCapture tcAlts digitChar squashId.toList).map List.asString

/-- Occurrence test for the literal `/@squashTM:/i` anywhere in a list of
characters (used to state that a title does not contain the marker). -/
def hasMarker : List Char → Bool
  | [] => false
  | c :: cs => (matchAlts markerAlts (c :: cs)).isSome || hasMarker cs

/-- Squash TM execution status (enum `SquashTestStatus`). -/
inductive SquashTestStatus where
  | PASSED
  | FAILED
  | BLOCKED
  | NOT_RUN
  | UNTESTABLE
  | SETTLED
deriving DecidableEq, Repr

/-- Input to `reportResult` (interface `TestExecutionResult`). -/
structure TestExecutionResult where
  squashId : String
  status : SquashTestStatus
  comment : Option String
  screenshotPath : Option String
  duration : Option Nat
  iterationIndex : Option Nat
  iterationData : Option String
deriving DecidableEq, Repr

/-- Client configuration captured at construction (SquashTM.ts lines
58-74): the enable flag `settings.reportToSquash` and the campaign id. -/
structure SquashConfig where
  enabled : Bool
  campaignId : String
deriving DecidableEq, Repr

/-- One remote HTTP call issued through the axios client. -/
inductive HttpCall where
  | patchTestPlan (testCaseId : String) (status : SquashTestStatus)
      (comment : String)
  | postAttachment (testCaseId : String) (path : String)
deriving DecidableEq, Repr

/-- Comment construction of `reportResult` (SquashTM.ts lines 105-114):
start from `result.comment || ''`, prepend the one-based DDT iteration tag
when an iteration index is present (appending the iteration data when that
is truthy), and append the duration line when the duration is truthy
(present and nonzero). -/
def buildComment (result : TestExecutionResult) : String :=
  let c := jsOrStr result.comment ""
  let c :=
    match result.iterationIndex with
    | none => c
    | some i =>
        let tagged := "[DDT Iteration " ++ toString (i + 1) ++ "] " ++ c
        match result.iterationData with
        | none => tagged
        | some d => if d = "" then tagged else tagged ++ "\nTest Data: " ++ d
  match result.duration with
  | none => c
  | some ms => if ms = 0 then c else c ++ "\nDuration: " ++ toString ms ++ "ms"

/-- Result upload (`reportResult`, SquashTM.ts lines 95-147), returning the
boolean outcome together with the remote calls issued, in order.  Disabled
integration returns `false` immediately with no remote call (lines 96-99).
A missing numeric id logs a warning and returns `false` with no call
(lines 119-122).  Otherwise one PATCH is issued; `patchOutcome` decides its
outcome (the try/catch of lines 101-146 maps a failure to `false`).  On
success, a screenshot is uploaded only for a failed result with a provided
path (lines 136-138); inside that upload an absent file is skipped and a
POST failure is caught and logged (lines 161-182), so it never affects the
returned success. -/
def reportResult (cfg : SquashConfig) (files : String → Option String)
    (patchOutcome : HttpCall → Except String Unit)
    (result : TestExecutionResult) : Bool × List HttpCall :=
  if !cfg.enabled then
    (false, [])
  else
    let comment := buildComment result
    match extractTestCaseId result.squashId with
    | none => (false, [])
    | some testCaseId =>
        let patchCall := HttpCall.patchTestPlan testCaseId result.status comment
        match patchOutcome patchCall with
        | .error _ => (false, [patchCall])
        | .ok _ =>
            match result.screenshotPath, result.status with
            | some path, .FAILED =>
                if (files path).isSome then
                  (true, [patchCall, HttpCall.postAttachment testCaseId path])
                else
                  (true, [patchCall])
            | _, _ => (true, [patchCall])

end PlaywrightE2E

namespace PlaywrightE2E

/-! ## Helper definitions and lemmas -/

/-- Number of `tests[]` entries of a spec having at least one attempt. -/
def entriesWithAttempts (spec : TestSpec) : Nat :=
  (spec.tests.filter (fun e => !e.results.isEmpty)).length

/-- Character list of the literal `@squashTM:` (`markerLits.asString`
is the marker text). -/
def markerLits : List Char :=
  ['@', 's', 'q', 'u', 'a', 's', 'h', 'T', 'M', ':']

theorem parseSpecs_append (a b : List TestSpec) :
    parseSpecs (a ++ b) = parseSpecs a ++ parseSpecs b := by
  induction a with
  | nil => simp [parseSpecs]
  | cons s rest ih => simp [parseSpecs, ih]

mutual

theorem parseTestSuite_eq (s : Suite) :
    parseTestSuite s = parseSpecs (collectSpecs s) := by
  match s with
  | .mk specs suites =>
      rw [parseTestSuite, collectSpecs, parseSuites_eq_collect, parseSpecs_append]

theorem parseSuites_eq_collect (l : List Suite) :
    parseSuites l = parseSpecs (collectSpecsList l) := by
  match l with
  | [] => rw [parseSuites, collectSpecsList, parseSpecs]
  | s :: rest =>
      rw [parseSuites, collectSpecsList, parseSpecs_append,
        parseTestSuite_eq s, parseSuites_eq_collect rest]

end

theorem flattenEntry_eq_none (title : String) (l : List AttemptResult) :
    flattenEntry title l = none ↔ l = [] := by
  cases l with
  | nil => simp [flattenEntry]
  | cons a l' =>
      simp only [flattenEntry]
      rw [List.getLast?_eq_getLast (a :: l') (by simp)]
      simp

theorem parseSpec_length (spec : TestSpec) :
    (parseSpec spec).length = entriesWithAttempts spec := by
  unfold parseSpec entriesWithAttempts
  induction spec.tests with
  | nil => rfl
  | cons e rest ih =>
      cases h : e.results with
      | nil => simpa [List.filterMap_cons, List.filter_cons, flattenEntry, h] using ih
      | cons a l' =>
          have hne : flattenEntry spec.title e.results ≠ none := by
            rw [Ne, flattenEntry_eq_none, h]; simp
          match hfe : flattenEntry spec.title e.results with
          | none => exact absurd hfe hne
          | some r =>
              rw [h] at hfe
              simp [List.filterMap_cons, List.filter_cons, hfe, h, ih]

theorem parseSpecs_length (l : List TestSpec) :
    (parseSpecs l).length = (l.map entriesWithAttempts).sum := by
  induction l with
  | nil => rfl
  | cons s rest ih => simp [parseSpecs, parseSpec_length, ih]

theorem mem_parseSpecs {r : TestResult} {spec : TestSpec} {l : List TestSpec}
    (hs : spec ∈ l) (hr : r ∈ parseSpec spec) : r ∈ parseSpecs l := by
  induction l with
  | nil => cases hs
  | cons s rest ih =>
      rw [parseSpecs]
      rcases List.mem_cons.mp hs with h | h
      · exact List.mem_append_left _ (h ▸ hr)
      · exact List.mem_append_right _ (ih h)

theorem counts_foldl (tests : List TestResult) (acc : Counts) :
    (tests.foldl countStep acc).passed + (tests.foldl countStep acc).failed +
      (tests.foldl countStep acc).skipped =
    acc.passed + acc.failed + acc.skipped + tests.length := by
  induction tests generalizing acc with
  | nil => simp
  | cons t rest ih =>
      rw [List.foldl_cons, ih]
      cases h : t.status <;> simp [countStep, h] <;> omega

theorem takeWhile_append_all {p : Char → Bool} (id post : List Char)
    (hall : ∀ c ∈ id, p c = true)
    (hpost : ∀ c, post.head? = some c → p c = false) :
    (id ++ post).takeWhile p = id := by
  induction id with
  | nil =>
      cases post with
      | nil => rfl
      | cons c cs => simp [List.takeWhile_cons, hpost c rfl]
  | cons c cs ih =>
      have hc := hall c (List.mem_cons_self c cs)
      simp only [List.cons_append, List.takeWhile_cons, hc, if_true]
      rw [ih (fun x hx => hall x (List.mem_cons_of_mem c hx))]

end PlaywrightE2E

namespace PlaywrightE2E

theorem scanCapture_marker (pre id post : List Char)
    (hpre : '@' ∉ pre) (hid : id ≠ [])
    (hall : ∀ c ∈ id, squashIdChar c = true)
    (hpost : ∀ c, post.head? = some c → squashIdChar c = false) :
    scanCapture markerAlts squashIdChar (pre ++ markerLits ++ id ++ post) =
      some id := by
  induction pre with
  | nil =>
      have hsplit : ([] : List Char) ++ markerLits ++ id ++ post =
          '@' :: (['s', 'q', 'u', 'a', 's', 'h', 'T', 'M', ':'] ++ (id ++ post)) := by
        simp [markerLits]
      rw [hsplit, scanCapture]
      have hm : matchAlts markerAlts
          ('@' :: (['s', 'q', 'u', 'a', 's', 'h', 'T', 'M', ':'] ++ (id ++ post))) =
          some (id ++ post) := rfl
      rw [hm]
      simp only
      rw [takeWhile_append_all id post hall hpost]
      simp [List.isEmpty_iff, hid]
  | cons c pre' ih =>
      have hc : c ≠ '@' := fun h => hpre (h ▸ List.mem_cons_self c pre')
      have hrest : '@' ∉ pre' := fun h => hpre (List.mem_cons_of_mem c h)
      have hsplit : (c :: pre') ++ markerLits ++ id ++ post =
          c :: (pre' ++ markerLits ++ id ++ post) := by simp
      rw [hsplit, scanCapture]
      have hm : matchAlts markerAlts (c :: (pre' ++ markerLits ++ id ++ post)) =
          none := by
        simp [matchAlts, markerAlts, hc]
      rw [hm]
      exact ih hrest

theorem scanCapture_no_marker (l : List Char) (h : hasMarker l = false) :
    scanCapture markerAlts squashIdChar l = none := by
  induction l with
  | nil => rfl
  | cons c cs ih =>
      rw [hasMarker] at h
      have h1 : (matchAlts markerAlts (c :: cs)).isSome = false := by
        cases hx : (matchAlts markerAlts (c :: cs)).isSome <;>
          simp [hx] at h ⊢
      have h2 : hasMarker cs = false := by
        cases hx : hasMarker cs <;> simp [hx] at h ⊢
      rw [scanCapture]
      cases hx : matchAlts markerAlts (c :: cs) with
      | none => exact ih h2
      | some after => rw [hx] at h1; simp at h1

end PlaywrightE2E

namespace PlaywrightE2E

/-- Demonstration suite for C1: one spec `"t"` whose single attempts list is
`[failed (3ms), passed (7ms)]`. -/
def retrySuites : List Suite :=
  [Suite.mk [⟨"t", [⟨[⟨.failed, 3, none⟩, ⟨.passed, 7, none⟩]⟩]⟩] []]

/-- C1: for every spec in a parsed report and every attempts list of it
(the `results` list of one of its `tests[]` entries) that is non-empty, the
parser emits a flattened result whose status and duration come from the
last element of that attempts list and whose retry count is its length
minus one; in particular attempts `[failed, passed]` flatten to status
`passed` with retry count 1. -/
theorem c1_last_attempt_wins :
    (∀ (suites : List Suite) (spec : TestSpec) (entry : TestEntry),
        spec ∈ collectSpecsList suites → entry ∈ spec.tests →
        ∀ (hne : entry.results ≠ []),
        ∃ r ∈ parseReportTests suites,
          flattenEntry spec.title entry.results = some r ∧
          r.name = spec.title ∧
          r.status = (entry.results.getLast hne).status ∧
          r.duration = (entry.results.getLast hne).duration ∧
          r.retries = entry.results.length - 1) ∧
    parseReportTests retrySuites = [⟨"t", .passed, 7, none, 1⟩] := by
  constructor
  · intro suites spec entry hs he hne
    have hsome : flattenEntry spec.title entry.results =
        some ⟨spec.title, (entry.results.getLast hne).status,
          (entry.results.getLast hne).duration,
          (entry.results.getLast hne).errorMessage.map truncate200,
          entry.results.length - 1⟩ := by
      rw [flattenEntry, List.getLast?_eq_getLast _ hne]
    refine ⟨_, ?_, hsome, rfl, rfl, rfl, rfl⟩
    rw [parseReportTests, parseSuites_eq_collect]
    exact mem_parseSpecs hs (List.mem_filterMap.mpr ⟨entry, he, hsome⟩)
  · decide

/-- Closed instance of `c1_last_attempt_wins` at the demonstration suite. -/
theorem c1_witness :
    ∃ r ∈ parseReportTests retrySuites,
      flattenEntry "t" [⟨.failed, 3, none⟩, ⟨.passed, 7, none⟩] = some r ∧
      r.name = "t" ∧ r.status = .passed ∧ r.duration = 7 ∧ r.retries = 1 := by
  obtain ⟨r, hmem, hfe, hn, hst, hd, hr⟩ :=
    c1_last_attempt_wins.1 retrySuites ⟨"t", [⟨[⟨.failed, 3, none⟩, ⟨.passed, 7, none⟩]⟩]⟩
      ⟨[⟨.failed, 3, none⟩, ⟨.passed, 7, none⟩]⟩ (by decide) (by decide) (by decide)
  exact ⟨r, hmem, hfe, hn, hst.trans rfl, hd.trans rfl, hr.trans rfl⟩

/-- Counterexample report for C2: a single spec `"m"` with two `tests[]`
entries (two project runs), each with one attempt. -/
def cexSuites : List Suite :=
  [Suite.mk [⟨"m", [⟨[⟨.passed, 1, none⟩]⟩, ⟨[⟨.passed, 2, none⟩]⟩]⟩] []]

/-- C2 falls at a report with one spec, every attempt list non-empty, for
which the parser emits two flattened results, not one. -/
theorem c2_counterexample :
    (collectSpecsList cexSuites).length = 1 ∧
    ((collectSpecsList cexSuites).all fun spec =>
      !spec.tests.isEmpty && spec.tests.all fun e => !e.results.isEmpty) = true ∧
    (parseReportTests cexSuites).length = 2 := by
  refine ⟨rfl, by decide, rfl⟩

/-- C2 (amended): the parser emits exactly one flattened result per
`tests[]` entry having at least one attempt; in particular, when every
spec has exactly one entry with a non-empty attempts list the output
has exactly one result per spec; and a spec all of whose entries have
zero attempts contributes nothing (and the total function raises no
error). -/
theorem c2_amended_counts :
    ∀ suites : List Suite,
      (parseReportTests suites).length =
        ((collectSpecsList suites).map entriesWithAttempts).sum ∧
      ((∀ spec ∈ collectSpecsList suites, ∃ e, spec.tests = [e] ∧ e.results ≠ []) →
        (parseReportTests suites).length = (collectSpecsList suites).length) ∧
      (∀ spec : TestSpec, (∀ e ∈ spec.tests, e.results = []) → parseSpec spec = []) := by
  intro suites
  have hlen : (parseReportTests suites).length =
      ((collectSpecsList suites).map entriesWithAttempts).sum := by
    rw [parseReportTests, parseSuites_eq_collect, parseSpecs_length]
  refine ⟨hlen, ?_, ?_⟩
  · intro h
    rw [hlen]
    have : ∀ l : List TestSpec, (∀ spec ∈ l, ∃ e, spec.tests = [e] ∧ e.results ≠ []) →
        (l.map entriesWithAttempts).sum = l.length := by
      intro l
      induction l with
      | nil => intro _; rfl
      | cons s rest ih =>
          intro hall
          obtain ⟨e, hte, hres⟩ := hall s (List.mem_cons_self s rest)
          have h1 : entriesWithAttempts s = 1 := by
            rw [entriesWithAttempts, hte]
            simp [List.filter_cons, List.isEmpty_iff, hres]
          simp [h1, ih (fun sp hsp => hall sp (List.mem_cons_of_mem s hsp))]
          omega
    exact this _ h
  · intro spec h
    rw [parseSpec]
    exact List.filterMap_eq_nil_iff.mpr
      (fun e he => (flattenEntry_eq_none _ _).mpr (h e he))

/-- Closed instance of `c2_amended_counts` at the C1 demonstration suite. -/
theorem c2_witness :
    (parseReportTests retrySuites).length = (collectSpecsList retrySuites).length := by
  refine (c2_amended_counts retrySuites).2.1 ?_
  intro spec hs
  have heq : spec = ⟨"t", [⟨[⟨.failed, 3, none⟩, ⟨.passed, 7, none⟩]⟩]⟩ :=
    List.mem_singleton.mp hs
  subst heq
  exact ⟨_, rfl, by decide⟩

/-- C3: every summary built by the parser satisfies
`totalTests = passed + failed + skipped`, the counts coming from the single
scan `countResults`. -/
theorem c3_summary_invariant :
    ∀ (tests : List TestResult) (d : ℚ) (st et env brow : String),
      (mkSummary tests d st et env brow).totalTests =
        (mkSummary tests d st et env brow).passed +
          (mkSummary tests d st et env brow).failed +
          (mkSummary tests d st et env brow).skipped := by
  intro tests d st et env brow
  have h := counts_foldl tests ⟨0, 0, 0⟩
  simp only [mkSummary, countResults] at *
  omega

/-- C7: with the integration disabled by configuration, `reportResult`
returns `false` immediately and issues no remote call, for any input. -/
theorem c7_disabled_skip :
    ∀ (cfg : SquashConfig) (files : String → Option String)
      (patchOutcome : HttpCall → Except String Unit)
      (result : TestExecutionResult),
      cfg.enabled = false →
      reportResult cfg files patchOutcome result = (false, []) := by
  intro cfg files po result h
  simp [reportResult, h]

/-- Closed instance of `c7_disabled_skip` at a concrete disabled client. -/
theorem c7_witness :
    reportResult ⟨false, "4"⟩ (fun _ => none) (fun _ => .ok ())
      ⟨"CAMP-4-TC-101", .PASSED, none, none, none, none, none⟩ = (false, []) :=
  c7_disabled_skip _ _ _ _ rfl

/-- C9: `sendReport` returns `true` exactly when the transport call
succeeds and `false` when it fails, and being a total function it never
propagates a transport error to its caller. -/
theorem c9_send_never_throws :
    ∀ (files : String → Option String)
      (transport : MailOptions → Except String Unit) (cfg : EmailSettings)
      (data : EmailReportData) (paths : Option (List String)),
      (transport (mailOptionsOf files cfg data paths) = .ok () →
        sendReport files transport cfg data paths = true) ∧
      (∀ msg, transport (mailOptionsOf files cfg data paths) = .error msg →
        sendReport files transport cfg data paths = false) := by
  intro files transport cfg data paths
  constructor
  · intro h; simp [sendReport, h]
  · intro msg h; simp [sendReport, h]

/-- Closed instance of `c9_send_never_throws` for one succeeding and one
failing transport. -/
theorem c9_witness :
    sendReport (fun _ => none) (fun _ => .ok ())
      ⟨"smtp.gmail.com", 587, false, "u", "p", ["qa@example.com"], "from@example.com"⟩
      ⟨⟨0, 0, 0, 0, 0, "s", "e", "qa", "chromium"⟩, [], none, none⟩ none = true ∧
    sendReport (fun _ => none) (fun _ => .error "connection refused")
      ⟨"smtp.gmail.com", 587, false, "u", "p", ["qa@example.com"], "from@example.com"⟩
      ⟨⟨0, 0, 0, 0, 0, "s", "e", "qa", "chromium"⟩, [], none, none⟩ none = false :=
  ⟨(c9_send_never_throws _ _ _ _ _).1 rfl,
   (c9_send_never_throws _ _ _ _ _).2 "connection refused" rfl⟩

end PlaywrightE2E

namespace PlaywrightE2E

/-- C4 falls at a summary with `totalTests = 0` and `passed = 1`: JS
division gives `1 / 0 = Infinity`, not `NaN`, and the literal text
substituted for the pass-rate placeholder is `"Infinity"`. -/
theorem c4_counterexample :
    passRateNum 1 0 ≠ .nan ∧
    generateSubject ⟨0, 1, 0, 0, 0, "s", "e", "qa", "chromium"⟩ =
      "✅ PASSED | Test Report | Infinity% Pass Rate | QA | 0 Tests" ∧
    substitutePlaceholders phPassRate
      ⟨⟨0, 1, 0, 0, 0, "s", "e", "qa", "chromium"⟩, [], none, none⟩ =
      "Infinity" := by
  refine ⟨by decide, by decide, rfl⟩

/-- C4 (amended): the pass rate is `round(100 × passed / totalTests)`
whenever `totalTests ≠ 0` (so 8 of 10 yields 80, in the subject line too);
for `totalTests = 0` the value is `NaN` — substituted verbatim as `"NaN"`
into the generated output — exactly when `passed = 0`, and `Infinity`
(substituted as `"Infinity"`) when `passed > 0`. -/
theorem c4_amended_pass_rate :
    (∀ p t : ℕ, t ≠ 0 →
      passRateNum p t = .int ⌊((p : ℚ) / (t : ℚ)) * 100 + 1 / 2⌋) ∧
    passRateNum 8 10 = .int 80 ∧
    generateSubject ⟨10, 8, 2, 0, 0, "s", "e", "qa", "chromium"⟩ =
      "❌ FAILED | Test Report | 80% Pass Rate | QA | 10 Tests" ∧
    (∀ p : ℕ, 0 < p → passRateNum p 0 = .inf) ∧
    passRateNum 0 0 = .nan ∧
    generateHtmlReport
      (fun p => if p = emailTemplatePath then some phPassRate else none)
      ⟨⟨0, 0, 0, 0, 0, "s", "e", "qa", "chromium"⟩, [], none, none⟩ = "NaN" ∧
    generateHtmlReport
      (fun p => if p = emailTemplatePath then some phPassRate else none)
      ⟨⟨0, 1, 0, 0, 0, "s", "e", "qa", "chromium"⟩, [], none, none⟩ =
      "Infinity" := by
  refine ⟨?_, ?_, ?_, ?_, rfl, rfl, rfl⟩
  · intro p t ht
    have h : ((t : ℕ) : ℚ) ≠ 0 := Nat.cast_ne_zero.mpr ht
    simp [passRateNum, jsDiv, jsMul, jsRound, h]
  · simp only [passRateNum, jsDiv, jsMul, jsRound]
    norm_num
  · simp only [generateSubject, passRateNum, jsDiv, jsMul, jsRound, jsIntToString]
    norm_num
    rfl
  · intro p hp
    have h1 : ((p : ℕ) : ℚ) ≠ 0 := Nat.cast_ne_zero.mpr hp.ne'
    have h2 : (0 : ℚ) < ((p : ℕ) : ℚ) := by exact_mod_cast hp
    simp [passRateNum, jsDiv, jsMul, jsRound, h1, h2]

/-- Closed instance of `c4_amended_pass_rate` at `passed = 8,
totalTests = 10` and at `passed = 3, totalTests = 0`. -/
theorem c4_witness :
    passRateNum 8 10 =
      .int ⌊((((8 : ℕ)) : ℚ) / (((10 : ℕ)) : ℚ)) * 100 + 1 / 2⌋ ∧
    passRateNum 3 0 = .inf :=
  ⟨c4_amended_pass_rate.1 8 10 (by decide),
   c4_amended_pass_rate.2.2.2.1 3 (by decide)⟩

/-- C5 falls at the email template: with no template file on disk,
report generation does not throw — it completes, behaving exactly as if
the built-in default template had been read from disk. -/
theorem c5_counterexample :
    generateHtmlReport (fun _ => none)
      ⟨⟨0, 0, 0, 0, 0, "s", "e", "qa", "chromium"⟩, [], none, none⟩ =
      generateHtmlReport
        (fun p => if p = emailTemplatePath then some getDefaultTemplate else none)
        ⟨⟨0, 0, 0, 0, 0, "s", "e", "qa", "chromium"⟩, [], none, none⟩ ∧
    generateHtmlReport (fun _ => none)
      ⟨⟨0, 0, 0, 0, 0, "s", "e", "qa", "chromium"⟩, [], none, none⟩ =
      replaceFirst
        (substitutePlaceholders getDefaultTemplate
          ⟨⟨0, 0, 0, 0, 0, "s", "e", "qa", "chromium"⟩, [], none, none⟩)
        phTestResultsRows (testRowsHtml []) :=
  ⟨rfl, rfl⟩

/-- C5 (amended): a missing test-data file at load time and a missing
serialized report file at parse time each fail with a thrown not-found
error propagating to the immediate caller; a missing email HTML template
is not an error — generation silently falls back to the built-in default
template. -/
theorem c5_amended_missing_files :
    (∀ (store : String → Option (Except String JsonVal)) (format : DataFormat)
        (filename : String),
      store (dataFilePath format filename) = none →
      loadTestData store format filename =
        .error (.notFound (dataFilePath format filename))) ∧
    (∀ (store : String → Option PlaywrightReport) (path env : String)
        (url : Option String),
      store path = none →
      parsePlaywrightReport store path env url = .error (.notFound path)) ∧
    (∀ (files : String → Option String) (data : EmailReportData),
      files emailTemplatePath = none →
      generateHtmlReport files data =
        replaceFirst (substitutePlaceholders getDefaultTemplate data)
          phTestResultsRows (testRowsHtml data.tests)) := by
  refine ⟨?_, ?_, ?_⟩
  · intro store format filename h
    simp [loadTestData, h]
  · intro store path env url h
    simp [parsePlaywrightReport, h]
  · intro files data h
    simp [generateHtmlReport, h]

/-- Closed instance of `c5_amended_missing_files` on an empty filesystem. -/
theorem c5_witness :
    loadTestData (fun _ => none) .json "users" =
      .error (.notFound "test-data/json/users.json") ∧
    parsePlaywrightReport (fun _ => none) "reports/test-results.json" "qa" none =
      .error (.notFound "reports/test-results.json") ∧
    generateHtmlReport (fun _ => none)
      ⟨⟨1, 1, 0, 0, 0, "s", "e", "qa", "chromium"⟩, [], none, none⟩ =
      replaceFirst
        (substitutePlaceholders getDefaultTemplate
          ⟨⟨1, 1, 0, 0, 0, "s", "e", "qa", "chromium"⟩, [], none, none⟩)
        phTestResultsRows (testRowsHtml []) :=
  ⟨c5_amended_missing_files.1 _ .json "users" rfl,
   c5_amended_missing_files.2.1 _ "reports/test-results.json" "qa" none rfl,
   c5_amended_missing_files.2.2 _ _ rfl⟩

end PlaywrightE2E

namespace PlaywrightE2E

/-- C6: a title of the shape `pre ++ "@squashTM:" ++ id ++ post` — with no
`@` in the prefix, a non-empty id of class characters, and the suffix not
extending the id — extracts exactly `id`; a title not containing the
marker extracts nothing, raising no error; concretely,
`"Some test @squashTM:CAMP-4-TC-101"` yields `"CAMP-4-TC-101"`, whose
numeric sub-identifier is `"101"`, while `"Some test"` yields `none`. -/
theorem c6_squash_id_extraction :
    (∀ pre id post : List Char,
      '@' ∉ pre → id ≠ [] → (∀ c ∈ id, squashIdChar c = true) →
      (∀ c, post.head? = some c → squashIdChar c = false) →
      parseSquashId (pre ++ markerLits ++ id ++ post).asString =
        some id.asString) ∧
    (∀ title : String, hasMarker title.toList = false →
      parseSquashId title = none) ∧
    markerLits.asString = "@squashTM:" ∧
    parseSquashId "Some test @squashTM:CAMP-4-TC-101" = some "CAMP-4-TC-101" ∧
    extractTestCaseId "CAMP-4-TC-101" = some "101" ∧
    parseSquashId "Some test" = none := by
  refine ⟨?_, ?_, rfl, by decide, by decide, by decide⟩
  · intro pre id post h1 h2 h3 h4
    have hl : ((pre ++ markerLits ++ id ++ post).asString).toList =
        pre ++ markerLits ++ id ++ post := rfl
    rw [parseSquashId, hl, scanCapture_marker pre id post h1 h2 h3 h4]
    rfl
  · intro title h
    rw [parseSquashId, scanCapture_no_marker _ h]
    rfl

/-- Closed instance of `c6_squash_id_extraction` at a concrete marked and
a concrete unmarked title. -/
theorem c6_witness :
    parseSquashId ((['T', 'e', 's', 't', ' '] ++ markerLits ++
      ['A', 'B', '1'] ++ [' ', 'z']).asString) = some (['A', 'B', '1'].asString) ∧
    parseSquashId "no marker here" = none :=
  ⟨c6_squash_id_extraction.1 ['T', 'e', 's', 't', ' '] ['A', 'B', '1'] [' ', 'z']
      (by decide) (by decide) (by decide) (by decide),
   c6_squash_id_extraction.2.1 "no marker here" (by decide)⟩

/-- C8 falls at a present key bound to `null`: the loader reports the
missing-key error, not the not-an-array error. -/
theorem c8_counterexample :
    loadTestDataArray
      (fun p => if p = "test-data/json/users.json" then
        some (.ok (.obj [("validUsers", .null)])) else none)
      .json "users" "validUsers" = .error (.missingKey "validUsers" "users") ∧
    LoadError.missingKey "validUsers" "users" ≠
      LoadError.notAnArray "validUsers" "users" :=
  ⟨rfl, by decide⟩

/-- C8 (amended): `loadTestDataArray` returns the value when the key is
present and array-valued; it fails with the missing-key error when the key
is absent — or bound to a falsy value — and with the not-an-array error
when the value is present, truthy, and not an array; concretely, loading
`{"validUsers":[{"username":"a"}]}` under key `validUsers` returns that
one-element sequence. -/
theorem c8_amended_load_array :
    (∀ (store : String → Option (Except String JsonVal)) (format : DataFormat)
        (filename key : String) (data : JsonVal) (elems : List JsonVal),
      loadTestData store format filename = .ok data →
      getFieldJs data key = some (.arr elems) →
      loadTestDataArray store format filename key = .ok elems) ∧
    (∀ (store : String → Option (Except String JsonVal)) (format : DataFormat)
        (filename key : String) (data : JsonVal),
      loadTestData store format filename = .ok data →
      getFieldJs data key = none →
      loadTestDataArray store format filename key =
        .error (.missingKey key filename)) ∧
    (∀ (store : String → Option (Except String JsonVal)) (format : DataFormat)
        (filename key : String) (data v : JsonVal),
      loadTestData store format filename = .ok data →
      getFieldJs data key = some v →
      truthy v = true → isArrayVal v = false →
      loadTestDataArray store format filename key =
        .error (.notAnArray key filename)) ∧
    loadTestDataArray
      (fun p => if p = "test-data/json/users.json" then
        some (.ok (.obj [("validUsers", .arr [.obj [("username", .str "a")]])]))
        else none)
      .json "users" "validUsers" = .ok [.obj [("username", .str "a")]] := by
  refine ⟨?_, ?_, ?_, rfl⟩
  · intro store format filename key data elems h1 h2
    simp [loadTestDataArray, h1, h2, truthy]
  · intro store format filename key data h1 h2
    simp [loadTestDataArray, h1, h2]
  · intro store format filename key data v h1 h2 ht ha
    cases v <;> simp_all [loadTestDataArray, truthy, isArrayVal]

/-- Closed instance of `c8_amended_load_array` at the example file. -/
theorem c8_witness :
    loadTestDataArray
      (fun p => if p = "test-data/yaml/creds.yaml" then
        some (.ok (.obj [("users", .arr [.str "a"]), ("extra", .bool true)]))
        else none)
      .yaml "creds" "users" = .ok [.str "a"] :=
  c8_amended_load_array.1 _ .yaml "creds" "users"
    (.obj [("users", .arr [.str "a"]), ("extra", .bool true)]) _ rfl rfl

/-- C10: a present key bound to a falsy value — `null`, `false`, `0` or
the empty string — makes `loadTestDataArray` fail with the missing-key
error; the not-an-array error arises only for a present, truthy,
non-array value. -/
theorem c10_falsy_is_missing_key :
    (∀ (store : String → Option (Except String JsonVal)) (format : DataFormat)
        (filename key : String) (data v : JsonVal),
      loadTestData store format filename = .ok data →
      getFieldJs data key = some v → truthy v = false →
      loadTestDataArray store format filename key =
        .error (.missingKey key filename)) ∧
    (∀ (store : String → Option (Except String JsonVal)) (format : DataFormat)
        (filename key : String) (data v : JsonVal),
      loadTestData store format filename = .ok data →
      getFieldJs data key = some v →
      truthy v = true → isArrayVal v = false →
      loadTestDataArray store format filename key =
        .error (.notAnArray key filename)) ∧
    truthy .null = false ∧ truthy (.bool false) = false ∧
    truthy (.num 0) = false ∧ truthy (.str "") = false := by
  refine ⟨?_, ?_, rfl, rfl, by decide, rfl⟩
  · intro store format filename key data v h1 h2 ht
    simp [loadTestDataArray, h1, h2, ht]
  · intro store format filename key data v h1 h2 ht ha
    cases v <;> simp_all [loadTestDataArray, truthy, isArrayVal]

/-- Closed instance of `c10_falsy_is_missing_key` at a key bound to
`false`. -/
theorem c10_witness :
    loadTestDataArray
      (fun p => if p = "test-data/json/flags.json" then
        some (.ok (.obj [("items", .bool false)])) else none)
      .json "flags" "items" = .error (.missingKey "items" "flags") :=
  c10_falsy_is_missing_key.1 _ .json "flags" "items"
    (.obj [("items", .bool false)]) (.bool false) rfl rfl rfl

end PlaywrightE2E
